import Mathlib

/-!
# Verification of the liirat-telegram-alert event pipeline

Shallow embedding of the economic-calendar alert pipeline:

* `api/cron.js`          — the main cron handler (provider fetch, cache,
  merge, window/country/keyword filters, dedupe-marker send loop);
* `api/cron/econ.js`     — an older edge-runtime cron variant (FMP provider,
  per-subscriber dedupe keys, unguarded send loop);
* `src/unnamed/part_015` — another cron variant (TradingEconomics provider,
  raw-date dedupe keys, marker write outside the dry guard);
* `src/unnamed/part_005` and the subscribe variant inside
  `api/econ/admin/add.js` — subscriber registration endpoints;
* `api/econ/upcoming.js` — the public upcoming-events preview endpoint.

Machine timestamps are modelled as `Int` milliseconds since the epoch.
JavaScript `Date.parse` is abstracted as a parameter
`dp : String → Option Int` (`none` models `NaN`); every pipeline function
takes it as an argument, so theorems quantify over all parse behaviours.

The external key-value store appears as explicit state: subscriber sets and
dedupe-marker sets are lists threaded through the functions.  Store reads
and writes that the source wraps in try/catch are modelled as succeeding
(the claims under study all assume a live store).
-/

namespace Liirat

/-- An economic-calendar event as it flows through the pipeline
(`{country, event, date, forecast, previous, impact}`).  `date` is the raw
provider string; `impact` is the raw impact string (`""` when the provider
field is absent, matching `(e.impact || '')`). -/
structure Event where
  country : String
  title : String
  date : String
  forecast : Option String
  previous : Option String
  impact : String
deriving DecidableEq, Repr

/-- An event paired with its parsed timestamp `ts = Date.parse(ev.date)`
(`{ ...ev, ts }` in `api/cron.js`). -/
structure TEvent where
  ev : Event
  ts : Int
deriving DecidableEq, Repr

/-- `s.includes(c)` for a single character. -/
def strHasChar (s : String) (c : Char) : Bool :=
  s.toList.contains c

/-- Does `pat` occur at the head of `l`? -/
def startsWithP : List Char → List Char → Bool
  | [], _ => true
  | _ :: _, [] => false
  | p :: ps, c :: cs => p == c && startsWithP ps cs

/-- Does `pat` occur as a contiguous run inside `l`?  Models the JavaScript
`String.prototype.includes` substring test. -/
def hasInfixP (pat : List Char) : List Char → Bool
  | [] => startsWithP pat []
  | c :: cs => startsWithP pat (c :: cs) || hasInfixP pat cs

/-- `s.includes(pat)` for a string pattern. -/
def strHasSub (s pat : String) : Bool :=
  hasInfixP pat.toList s.toList

/-- JavaScript `toUpperCase`, character by character (the filter keywords
and event titles are ASCII). -/
def strUpper (s : String) : String :=
  String.mk (s.toList.map Char.toUpper)

/-- JavaScript `toLowerCase`, character by character. -/
def strLower (s : String) : String :=
  String.mk (s.toList.map Char.toLower)

/-- The regular expression `^\d+$` from the subscriber endpoints and from
the `validSubs` filter in `api/cron.js`. -/
def isAllDigits (s : String) : Bool :=
  !s.isEmpty && s.toList.all Char.isDigit

/-- Window filter of `api/cron.js`: keep events whose parsed timestamp `ts`
satisfies `ts >= fromTs && ts <= toTs`; an unparseable date gives `NaN`,
whose comparisons are false, so the event is dropped.  This is the shape of
both the provider-event filter (`lines 241-244`) and the manual-event
filter inside `fetchManual` (`lines 115-126`, where `Number.isFinite`
already rejects `NaN`). -/
def windowFilter (dp : String → Option Int) (fromTs toTs : Int)
    (evs : List Event) : List Event :=
  evs.filter fun e =>
    match dp e.date with
    | some ts => decide (fromTs ≤ ts) && decide (ts ≤ toTs)
    | none => false

/-- The minute bucket of a timestamp.  `api/cron.js` renders it as
`new Date(ts).toISOString().slice(0, 16)` (`"YYYY-MM-DDTHH:MM"`); for the
timestamps the pipeline handles that string determines and is determined by
`⌊ts / 60000⌋`, which is what we store. -/
def tsMinute (ts : Int) : Int :=
  ts / 60000

/-- The composite key `country|event|minute` used both for the merge map
(`api/cron.js` line 259) and, with the `econ:sent:` prefix, for dedupe
markers (line 370).  Modelled structurally rather than as the rendered
string. -/
structure EKey where
  country : String
  title : String
  minute : Int
deriving DecidableEq, Repr

/-- Key of a merged event (`econ:sent:${ev.country}|${ev.event}|${isoMinute}`
without the constant prefix). -/
def ekey (t : TEvent) : EKey :=
  ⟨t.ev.country, t.ev.title, tsMinute t.ts⟩

/-- The `uniqueMap` construction of `api/cron.js` lines 257-263: walk the
combined list, keep the first event for each composite key, attaching
`ts = Date.parse(ev.date)`. -/
def uniqueByKey (dp : String → Option Int) : List Event → List EKey → List TEvent
  | [], _ => []
  | e :: rest, seen =>
    let ts := (dp e.date).getD 0
    let k : EKey := ⟨e.country, e.title, tsMinute ts⟩
    if seen.contains k then uniqueByKey dp rest seen
    else ⟨e, ts⟩ :: uniqueByKey dp rest (k :: seen)

/-- Insert an event into a `ts`-sorted list, after any events with the same
timestamp. -/
def insertByTs (t : TEvent) : List TEvent → List TEvent
  | [] => [t]
  | u :: rest => if u.ts ≤ t.ts then u :: insertByTs t rest else t :: u :: rest

/-- Stable ascending sort by `ts`, modelling the JavaScript
`sort((a, b) => a.ts - b.ts)` (stable, ascending by timestamp). -/
def sortByTs (l : List TEvent) : List TEvent :=
  l.foldl (fun acc t => insertByTs t acc) []

/-- Merge step: dedupe by composite key, then sort ascending by `ts`
(`Array.from(uniqueMap.values()).sort((a, b) => a.ts - b.ts)`). -/
def mergeEvents (dp : String → Option Int) (evs : List Event) : List TEvent :=
  sortByTs (uniqueByKey dp evs [])

/-- `ALLOW_COUNTRIES` from `api/cron.js` lines 271-278. -/
def ALLOW_COUNTRIES : List String :=
  ["United States", "China", "Japan", "Germany", "United Kingdom", "Euro Area"]

/-- `MAJOR_KEYWORDS` from `api/cron.js` line 279. -/
def MAJOR_KEYWORDS : List String :=
  ["CPI", "NFP", "FOMC", "RATE", "RATES", "INTEREST", "GDP", "PMI", "ECB",
   "BOE", "FED", "NON-FARM", "NONFARM", "UNEMPLOYMENT", "JOBLESS", "RETAIL",
   "SALES", "INFLATION", "PAYROLL", "EMPLOYMENT"]

/-- The country plus mode/keyword filter of `api/cron.js` lines 281-286. -/
def passesFilters (mode : String) (t : TEvent) : Bool :=
  ALLOW_COUNTRIES.contains t.ev.country &&
    (mode == "all" ||
      MAJOR_KEYWORDS.any fun k => strHasSub (strUpper t.ev.title) k)


/-- Outcome of one upstream HTTP round trip, as the pipeline observes it:
a JSON body, a non-2xx response, or a thrown error (timeout / network /
malformed body). -/
inductive FetchOutcome (α : Type) where
  | ok (body : α)
  | httpError (status : Nat)
  | exn (msg : String)
deriving DecidableEq, Repr

/-- A raw TradingEconomics calendar row (`Country/Event/Date/Forecast/
Previous/Importance`), before normalization. -/
structure RawTE where
  rawCountry : String
  rawEvent : String
  rawDate : String
  rawForecast : Option String
  rawPrevious : Option String
  importance : Nat
deriving DecidableEq, Repr

/-- `mapImportance` from `api/cron.js` lines 84-88. -/
def mapImportance (importance : Nat) : String :=
  if importance == 3 then "high"
  else if importance == 2 then "medium"
  else "low"

/-- `normalizeCountry` from `api/cron.js` lines 90-101: identity on the six
mapped names, `null` otherwise. -/
def normalizeCountry (name : String) : Option String :=
  if ALLOW_COUNTRIES.contains name then some name else none

/-- `fetchTradingEconomics` (`api/cron.js` lines 34-82): a non-2xx response
or a thrown error yields `null`; a JSON body is normalized and events whose
country does not normalize are dropped. -/
def fetchTradingEconomics (outcome : FetchOutcome (List RawTE)) :
    Option (List Event) :=
  match outcome with
  | .ok raw =>
    some <| raw.filterMap fun r =>
      match normalizeCountry r.rawCountry with
      | some c =>
        some ⟨c, r.rawEvent, r.rawDate, r.rawForecast, r.rawPrevious,
          mapImportance r.importance⟩
      | none => none
  | .httpError _ => none
  | .exn _ => none

/-- Result of one Telegram `sendMessage` call: 2xx, non-2xx, or a thrown
fetch error. -/
inductive SendResult where
  | ok
  | httpFail
  | threw
deriving DecidableEq, Repr

/-- Per-event subscriber loop of `api/cron.js` lines 383-401: every
subscriber is attempted in order, each call sits in its own try/catch, the
`sent` counter increments only on a 2xx response.  Returns the success
count and the list of attempted `(chatId, event-key)` sends. -/
def cronSendEvent (oracle : String → EKey → SendResult) (subs : List String)
    (k : EKey) : Nat × List (String × EKey) :=
  match subs with
  | [] => (0, [])
  | chat :: rest =>
    ((if oracle chat k == .ok then 1 else 0) + (cronSendEvent oracle rest k).1,
     (chat, k) :: (cronSendEvent oracle rest k).2)

/-- State produced by one cron run: response-level `sent` counter, the
attempted outbound sends, the dedupe markers written by this run, and the
final marker store. -/
structure LoopOut where
  sent : Nat
  sends : List (String × EKey)
  written : List EKey
  markers : List EKey
deriving DecidableEq, Repr

/-- Dedupe-and-send loop of `api/cron.js` lines 367-409: for each filtered
event, skip it if a live marker exists, otherwise send to every subscriber
and then write the marker (`kv.set(dedupeKey, '1', { ex: DEDUPE_EXPIRY })`)
regardless of how many sends succeeded. -/
def cronSendLoop (oracle : String → EKey → SendResult) (subs : List String) :
    List TEvent → List EKey → LoopOut
  | [], markers => ⟨0, [], [], markers⟩
  | t :: rest, markers =>
    if markers.contains (ekey t) then
      cronSendLoop oracle subs rest markers
    else
      ⟨(cronSendEvent oracle subs (ekey t)).1 +
          (cronSendLoop oracle subs rest (ekey t :: markers)).sent,
        (cronSendEvent oracle subs (ekey t)).2 ++
          (cronSendLoop oracle subs rest (ekey t :: markers)).sends,
        ekey t :: (cronSendLoop oracle subs rest (ekey t :: markers)).written,
        (cronSendLoop oracle subs rest (ekey t :: markers)).markers⟩

/-- `DEDUPE_EXPIRY` from `api/cron.js` line 362 (seconds). -/
def DEDUPE_EXPIRY : Nat := 48 * 60 * 60

/-- JSON summary / error responses of the `api/cron.js` handler. -/
inductive CronResp where
  | unauthorized
  | missingToken
  | summary (provider : String) (subsN eventsTotal afterFilters sentN : Nat)
      (dry : Bool)
deriving DecidableEq, Repr

/-- Is this response an error (non-2xx) response? -/
def CronResp.isErr : CronResp → Bool
  | .unauthorized => true
  | .missingToken => true
  | .summary .. => false

/-- Cache branch of the provider resolution (`api/cron.js` lines 198-222):
a cached payload younger than one hour is window-filtered to the alert
window; otherwise the provider event list starts empty with
`providerUsed = 'none'`. -/
def cronCachePair (dp : String → Option Int) (now endTs : Int)
    (apiCache : Option (Int × List Event)) : List Event × String :=
  match apiCache with
  | some (cachedAt, evs) =>
    if now - cachedAt < 3600000 then
      (windowFilter dp now endTs evs, "tradingeconomics_cached")
    else ([], "none")
  | none => ([], "none")

/-- Lines 224-250 of `api/cron.js`: refetch when the cache yielded nothing
usable; a failed or empty fetch leaves the provider event list empty. -/
def cronProvider (dp : String → Option Int) (now endTs : Int)
    (apiCache : Option (Int × List Event))
    (outcome : FetchOutcome (List RawTE)) : List Event × String :=
  if (cronCachePair dp now endTs apiCache).1.isEmpty ||
      (cronCachePair dp now endTs apiCache).2 == "none" then
    match fetchTradingEconomics outcome with
    | some fresh =>
      if 0 < fresh.length then
        (windowFilter dp now endTs fresh, "tradingeconomics")
      else ([], (cronCachePair dp now endTs apiCache).2)
    | none => ([], (cronCachePair dp now endTs apiCache).2)
  else cronCachePair dp now endTs apiCache

/-- The Filter & Dedupe Engine of `api/cron.js` (lines 192-286, marker
dedupe excluded): resolve provider events (already window-filtered by
`cronProvider`), window-filter the manual events, concatenate, dedupe by
composite key and sort by timestamp (`events_total` counts this merged
list), apply the country/keyword filter, truncate to `limit`.  Returns
`(providerUsed, merged, filtered)`. -/
def cronEvents (dp : String → Option Int) (mode : String) (lim : Nat)
    (now windowMin : Int) (source : String)
    (apiCache : Option (Int × List Event))
    (outcome : FetchOutcome (List RawTE)) (manualRaw : List Event) :
    String × List TEvent × List TEvent :=
  let endTs := now + windowMin * 60000
  let pe :=
    if source == "provider" then cronProvider dp now endTs apiCache outcome
    else ([], "none")
  let manualEvents := windowFilter dp now endTs manualRaw
  let all := mergeEvents dp (pe.1 ++ manualEvents)
  let filtered := (all.filter (passesFilters mode)).take lim
  (pe.2, all, filtered)

/-- Full result of one `api/cron.js` invocation. -/
structure CronOut where
  resp : CronResp
  sent : Nat
  sends : List (String × EKey)
  written : List EKey
  markers : List EKey
deriving DecidableEq, Repr

/-- The `api/cron.js` handler after a successful bearer-auth check
(lines 157-431): parse params, require a bot token, load subscribers and
keep the all-digit ones (returning an empty summary when none remain),
resolve provider events (cache or fresh fetch), fetch manual events, merge
and filter, then — unless `dry` — run the dedupe/send loop.  The
`econ:api:cache` and `econ:cache:upcoming` writes do not feed back into
this invocation and are not part of the result. -/
def cronHandler (dp : String → Option Int) (dry : Bool) (mode : String)
    (lim : Nat) (now windowMin : Int) (botToken : Bool) (source : String)
    (apiCache : Option (Int × List Event))
    (outcome : FetchOutcome (List RawTE)) (manualRaw : List Event)
    (subsRaw : List String) (oracle : String → EKey → SendResult)
    (markers : List EKey) : CronOut :=
  if !botToken then ⟨.missingToken, 0, [], [], markers⟩
  else
    let validSubs := subsRaw.filter isAllDigits
    if validSubs.isEmpty then
      ⟨.summary "none" 0 0 0 0 dry, 0, [], [], markers⟩
    else
      let ce := cronEvents dp mode lim now windowMin source apiCache outcome manualRaw
      if ce.2.2.isEmpty then
        ⟨.summary ce.1 validSubs.length ce.2.1.length 0 0 dry,
          0, [], [], markers⟩
      else if dry then
        ⟨.summary ce.1 validSubs.length ce.2.1.length ce.2.2.length 0 dry,
          0, [], [], markers⟩
      else
        let out := cronSendLoop oracle validSubs ce.2.2 markers
        ⟨.summary ce.1 validSubs.length ce.2.1.length ce.2.2.length out.sent dry,
          out.sent, out.sends, out.written, out.markers⟩

/-- Per-subscriber dedupe key of `api/cron/econ.js` line 61:
`sent:${chat_id}:${ev.date}-${ev.event}` — chat id, raw date string, title. -/
structure EconKey where
  chat : String
  date : String
  title : String
deriving DecidableEq, Repr

/-- Build the `api/cron/econ.js` dedupe key for a chat/event pair. -/
def econKey (chat : String) (e : Event) : EconKey :=
  ⟨chat, e.date, e.title⟩

/-- Upcoming filter of `api/cron/econ.js` lines 44-48:
`eventTime > now && eventTime <= now + 30min && impact === 'high'`
(an unparseable date yields an invalid `Date`, whose comparisons are
false). -/
def econUpcoming (dp : String → Option Int) (now : Int)
    (events : List Event) : List Event :=
  events.filter fun e =>
    match dp e.date with
    | some ts =>
      decide (now < ts) && decide (ts ≤ now + 30 * 60000) &&
        (strLower e.impact == "high")
    | none => false

/-- Running counters of the `api/cron/econ.js` send loop. -/
structure EconProgress where
  sent : Nat
  sends : List (String × EconKey)
  markers : List EconKey
deriving DecidableEq, Repr

/-- Inner event loop of `api/cron/econ.js` lines 59-90 for one subscriber:
skip marked pairs, otherwise `await fetch` — with no try/catch, so a thrown
send aborts the whole handler (`.error` carries the progress made) — then
write the marker and increment `sent` (the HTTP status of the send is never
inspected). -/
def econSendEvents (oracle : String → EconKey → SendResult) (chat : String) :
    List Event → EconProgress → Except EconProgress EconProgress
  | [], st => .ok st
  | e :: rest, st =>
    let k := econKey chat e
    if st.markers.contains k then econSendEvents oracle chat rest st
    else
      let atts := st.sends ++ [(chat, k)]
      if oracle chat k == .threw then .error ⟨st.sent, atts, st.markers⟩
      else
        econSendEvents oracle chat rest
          ⟨st.sent + 1, atts, st.markers ++ [k]⟩

/-- Outer subscriber loop of `api/cron/econ.js` lines 58-91. -/
def econSendLoop (oracle : String → EconKey → SendResult)
    (upcoming : List Event) :
    List String → EconProgress → Except EconProgress EconProgress
  | [], st => .ok st
  | chat :: rest, st =>
    match econSendEvents oracle chat upcoming st with
    | .ok st2 => econSendLoop oracle upcoming rest st2
    | .error st2 => .error st2

/-- Responses of the `api/cron/econ.js` handler.  `crashed` stands for the
platform-level failure produced when the unguarded send loop throws (the
handler has no surrounding try/catch). -/
inductive EconResp where
  | unauthorized
  | noSubs
  | apiError (status : Nat)
  | fetchError (msg : String)
  | noUpcoming
  | summary (sent subsN eventsN : Nat)
  | crashed
deriving DecidableEq, Repr

/-- Is this an error (non-2xx) response? -/
def EconResp.isErr : EconResp → Bool
  | .unauthorized => true
  | .apiError _ => true
  | .fetchError _ => true
  | .crashed => true
  | _ => false

/-- The `api/cron/econ.js` handler after auth (lines 16-95): empty
subscriber set short-circuits with `{sent: 0}`; a provider non-2xx returns
a 500 `API error` response and a thrown fetch returns a 500 with the error
message; otherwise filter to the next 30 minutes and run the send loop. -/
def econHandler (dp : String → Option Int) (now : Int) (subs : List String)
    (outcome : FetchOutcome (List Event))
    (oracle : String → EconKey → SendResult) (markers : List EconKey) :
    EconResp × List EconKey :=
  if subs.isEmpty then (.noSubs, markers)
  else
    match outcome with
    | .httpError s => (.apiError s, markers)
    | .exn m => (.fetchError m, markers)
    | .ok events =>
      let upcoming := econUpcoming dp now events
      if upcoming.isEmpty then (.noUpcoming, markers)
      else
        match econSendLoop oracle upcoming subs ⟨0, [], markers⟩ with
        | .ok st => (.summary st.sent subs.length upcoming.length, st.markers)
        | .error st => (.crashed, st.markers)

/-- Dedupe key of `src/unnamed/part_015` line 164:
`sent:${ev.country}:${ev.event}:${ev.date}` — country, title and the *raw*
date string, with no minute truncation. -/
structure PKey where
  country : String
  title : String
  date : String
deriving DecidableEq, Repr

/-- Build the `part_015` dedupe key of an event. -/
def p15key (e : Event) : PKey :=
  ⟨e.country, e.title, e.date⟩

/-- Running state of the `part_015` send loop. -/
structure P15Progress where
  sent : Nat
  sends : List (String × PKey)
  written : List PKey
  markers : List PKey
deriving DecidableEq, Repr

/-- Subscriber loop of `part_015` lines 168-180: each send is an unguarded
`await fetch` (a throw aborts, caught only by the handler's outermost
try/catch), and `sent` increments after every completed call whatever its
HTTP status. -/
def p15SendSubs (oracle : String → PKey → SendResult) (k : PKey) :
    List String → Nat × List (String × PKey) →
    Except (Nat × List (String × PKey)) (Nat × List (String × PKey))
  | [], acc => .ok acc
  | chat :: rest, acc =>
    let atts := acc.2 ++ [(chat, k)]
    if oracle chat k == .threw then .error (acc.1, atts)
    else p15SendSubs oracle k rest (acc.1 + 1, atts)

/-- Event loop of `part_015` lines 147-183: skip events with a live marker;
when not `dry`, send to every subscriber; then write the dedupe marker —
the `kv.set(dedupeKey, '1', { ex: 48 * 3600 })` on line 182 sits *outside*
the `if (!dry)` block, so the marker is written in dry runs too.  A thrown
send aborts before the current event's marker write. -/
def p15SendLoop (oracle : String → PKey → SendResult) (subs : List String)
    (dry : Bool) : List Event → P15Progress → Except P15Progress P15Progress
  | [], st => .ok st
  | e :: rest, st =>
    let k := p15key e
    if st.markers.contains k then p15SendLoop oracle subs dry rest st
    else
      let inner :=
        if dry then .ok (st.sent, st.sends)
        else p15SendSubs oracle k subs (st.sent, st.sends)
      match inner with
      | .error (n, atts) => .error ⟨n, atts, st.written, st.markers⟩
      | .ok (n, atts) =>
        p15SendLoop oracle subs dry rest
          ⟨n, atts, st.written ++ [k], st.markers ++ [k]⟩

/-- Responses of the `part_015` handler relevant to its pre-pipeline
phase. -/
inductive P15Resp where
  | unauthorized
  | missingToken
  | noValidSubs
  | teApiError (status : Nat)
  | teFetchError (msg : String)
deriving DecidableEq, Repr

/-- Is this an error (non-2xx) response?  `noValidSubs` is the 200
`{sent: 0}` short-circuit. -/
def P15Resp.isErr : P15Resp → Bool
  | .noValidSubs => false
  | _ => true

/-- Pre-pipeline phase of `part_015` (lines 14-83): token check, the
valid-subscriber short-circuit, and the TradingEconomics fetch, where a
non-2xx upstream response returns a 502 (`te api error`) and a thrown
fetch returns a 500 (`te fetch error`).  `none` means the handler
continues into the filter/send pipeline. -/
def part015FetchPhase (botToken : Bool) (subsRaw : List String)
    (outcome : FetchOutcome (List RawTE)) : Option P15Resp :=
  if !botToken then some .missingToken
  else
    let validSubs := subsRaw.filter isAllDigits
    if validSubs.isEmpty then some .noValidSubs
    else
      match outcome with
      | .httpError s => some (.teApiError s)
      | .exn m => some (.teFetchError m)
      | .ok _ => none

/-- Responses of the subscriber-registration endpoints. -/
inductive SubResp where
  | methodNotAllowed
  | missingChatId
  | templateRejected
  | nonNumericRejected
  | okResp (count : Nat)
deriving DecidableEq, Repr

/-- `kv.sadd`: add a member to a set, modelled on the member list. -/
def sadd (subs : List String) (x : String) : List String :=
  if subs.contains x then subs else subs ++ [x]

/-- The `src/unnamed/part_005` subscribe handler (POST path, lines 6-31):
reject a missing chat id, then uninterpolated template placeholders
(`'{'`, `'}'` or `'user.'` occurring in the id), then anything that fails
`/^\d+$/`; only then `sadd` the id. -/
def part005Subscribe (chatId : String) (subs : List String) :
    SubResp × List String :=
  if chatId.isEmpty then (.missingChatId, subs)
  else if strHasChar chatId '{' || strHasChar chatId '}' ||
      strHasSub chatId "user." then
    (.templateRejected, subs)
  else if !isAllDigits chatId then (.nonNumericRejected, subs)
  else
    let subs2 := sadd subs chatId
    (.okResp subs2.length, subs2)

/-- The subscribe variant inside `api/econ/admin/add.js` (lines 111-121):
rejects only a falsy chat id and stores anything else without
validation. -/
def addJsSubscribe (chatId : String) (subs : List String) :
    SubResp × List String :=
  if chatId.isEmpty then (.missingChatId, subs)
  else
    let subs2 := sadd subs chatId
    (.okResp subs2.length, subs2)

/-- The `econ:cache:upcoming` record (`{ at, items }`). -/
structure CacheRec where
  cachedAt : Int
  items : List TEvent
deriving DecidableEq, Repr

/-- Result of one `api/econ/upcoming.js` invocation: the returned items,
whether the manual store was queried (the `kv.zrange('econ:manual', ...)`
fallback ran), and how many cache writes the handler performed (the source
contains no `kv.set` at all, so this is always 0). -/
structure UpcomingOut where
  items : List TEvent
  queriedManual : Bool
  cacheWrites : Nat
deriving DecidableEq, Repr

/-- Manual-store fallback of `api/econ/upcoming.js` lines 38-67: parse each
stored event, drop unparseable dates, keep the next 24 hours, sort by
timestamp. -/
def upcomingFallback (dp : String → Option Int) (now : Int)
    (manualRaw : List Event) : List TEvent :=
  sortByTs
    ((manualRaw.filterMap fun e => (dp e.date).map fun ts => TEvent.mk e ts).filter
      fun t => decide (now ≤ t.ts) && decide (t.ts ≤ now + 86400000))

/-- The `api/econ/upcoming.js` handler (lines 17-110): serve the cached
item list when it is present and non-empty (an expired cache key reads as
absent), otherwise query the manual store and filter live; in both cases
truncate to `limit`.  The handler never writes the cache. -/
def upcomingHandler (dp : String → Option Int) (now : Int) (lim : Nat)
    (cache : Option CacheRec) (manualRaw : List Event) : UpcomingOut :=
  let cachedItems := match cache with
    | some c => c.items
    | none => []
  if cachedItems.isEmpty then
    ⟨(upcomingFallback dp now manualRaw).take lim, true, 0⟩
  else
    ⟨cachedItems.take lim, false, 0⟩

/-! ## Helper lemmas -/

theorem mem_windowFilter {dp : String → Option Int} {a b : Int}
    {evs : List Event} {e : Event} :
    e ∈ windowFilter dp a b evs ↔
      e ∈ evs ∧ ∃ ts, dp e.date = some ts ∧ a ≤ ts ∧ ts ≤ b := by
  simp only [windowFilter, List.mem_filter]
  refine and_congr_right fun _ => ?_
  cases hdp : dp e.date with
  | none => simp [hdp]
  | some ts => simp [hdp]

theorem mem_uniqueByKey {dp : String → Option Int} :
    ∀ {l : List Event} {seen : List EKey} {t : TEvent},
      t ∈ uniqueByKey dp l seen → t.ev ∈ l := by
  intro l
  induction l with
  | nil => intro seen t h; simp [uniqueByKey] at h
  | cons e rest ih =>
    intro seen t h
    simp only [uniqueByKey] at h
    split at h
    · exact List.mem_cons_of_mem _ (ih h)
    · rcases List.mem_cons.mp h with h1 | h2
      · rw [h1]; exact List.mem_cons_self _ _
      · exact List.mem_cons_of_mem _ (ih h2)

theorem mem_insertByTs {t x : TEvent} :
    ∀ {l : List TEvent}, x ∈ insertByTs t l ↔ x = t ∨ x ∈ l := by
  intro l
  induction l with
  | nil => simp [insertByTs]
  | cons u rest ih =>
    simp only [insertByTs]
    split
    · rw [List.mem_cons, ih, List.mem_cons]
      tauto
    · simp only [List.mem_cons]

theorem mem_sortByTs_aux (x : TEvent) :
    ∀ (l acc : List TEvent),
      (x ∈ l.foldl (fun acc t => insertByTs t acc) acc ↔ x ∈ acc ∨ x ∈ l) := by
  intro l
  induction l with
  | nil => simp
  | cons t rest ih =>
    intro acc
    simp only [List.foldl_cons]
    rw [ih, mem_insertByTs]
    simp
    tauto

theorem mem_sortByTs {x : TEvent} {l : List TEvent} :
    x ∈ sortByTs l ↔ x ∈ l := by
  unfold sortByTs
  rw [mem_sortByTs_aux]
  simp

theorem mem_mergeEvents {dp : String → Option Int} {evs : List Event}
    {t : TEvent} (h : t ∈ mergeEvents dp evs) : t.ev ∈ evs := by
  exact mem_uniqueByKey (mem_sortByTs.mp h)

theorem cronProvider_shape (dp : String → Option Int) (now endTs : Int)
    (apiCache : Option (Int × List Event))
    (outcome : FetchOutcome (List RawTE)) :
    (cronProvider dp now endTs apiCache outcome).1 = [] ∨
      ∃ z, (cronProvider dp now endTs apiCache outcome).1 =
        windowFilter dp now endTs z := by
  have hcache : (cronCachePair dp now endTs apiCache).1 = [] ∨
      ∃ z, (cronCachePair dp now endTs apiCache).1 =
        windowFilter dp now endTs z := by
    unfold cronCachePair
    rcases apiCache with _ | ⟨cachedAt, evs⟩
    · left; rfl
    · simp only []
      split
      · right; exact ⟨evs, rfl⟩
      · left; rfl
  unfold cronProvider
  split
  · split
    · split
      · right; exact ⟨_, rfl⟩
      · left; rfl
    · left; rfl
  · exact hcache

theorem mem_cronEvents_parse {dp : String → Option Int} {mode : String}
    {lim : Nat} {now windowMin : Int} {source : String}
    {apiCache : Option (Int × List Event)}
    {outcome : FetchOutcome (List RawTE)} {manualRaw : List Event}
    {t : TEvent}
    (h : t ∈ (cronEvents dp mode lim now windowMin source apiCache outcome
      manualRaw).2.2) :
    ∃ ts, dp t.ev.date = some ts := by
  simp only [cronEvents] at h
  have hmem := mem_mergeEvents (List.mem_filter.mp (List.mem_of_mem_take h)).1
  rcases List.mem_append.mp hmem with hp | hm
  · rcases cronProvider_shape dp now (now + windowMin * 60000) apiCache
        outcome with hz | ⟨z, hz⟩
    · split at hp
      · rw [hz] at hp; simp at hp
      · simp at hp
    · split at hp
      · rw [hz] at hp
        obtain ⟨-, ts, hts, -, -⟩ := mem_windowFilter.mp hp
        exact ⟨ts, hts⟩
      · simp at hp
  · obtain ⟨-, ts, hts, -, -⟩ := mem_windowFilter.mp hm
    exact ⟨ts, hts⟩

theorem cronSendEvent_sends (oracle : String → EKey → SendResult)
    (k : EKey) :
    ∀ subs : List String,
      (cronSendEvent oracle subs k).2 = subs.map fun c => (c, k) := by
  intro subs
  induction subs with
  | nil => rfl
  | cons c rest ih => simp [cronSendEvent, ih]

theorem cronSendLoop_markers_mono (oracle : String → EKey → SendResult)
    (subs : List String) :
    ∀ (l : List TEvent) (markers : List EKey) (k : EKey),
      k ∈ markers → k ∈ (cronSendLoop oracle subs l markers).markers := by
  intro l
  induction l with
  | nil => intro markers k hk; exact hk
  | cons t rest ih =>
    intro markers k hk
    simp only [cronSendLoop]
    split
    · exact ih markers k hk
    · exact ih (ekey t :: markers) k (List.mem_cons_of_mem _ hk)

theorem cronSendLoop_mem_markers (oracle : String → EKey → SendResult)
    (subs : List String) :
    ∀ (l : List TEvent) (markers : List EKey) (t : TEvent),
      t ∈ l → ekey t ∈ (cronSendLoop oracle subs l markers).markers := by
  intro l
  induction l with
  | nil => intro markers t h; simp at h
  | cons u rest ih =>
    intro markers t h
    simp only [cronSendLoop]
    rcases List.mem_cons.mp h with h1 | h2
    · rw [h1]
      split
      · next hc =>
        exact cronSendLoop_markers_mono oracle subs rest markers _
          (by simpa using hc)
      · exact cronSendLoop_markers_mono oracle subs rest _ _
          (List.mem_cons_self _ _)
    · split
      · exact ih markers t h2
      · exact ih (ekey u :: markers) t h2

theorem cronSendLoop_all_marked (oracle : String → EKey → SendResult)
    (subs : List String) :
    ∀ (l : List TEvent) (markers : List EKey),
      (∀ t ∈ l, ekey t ∈ markers) →
      cronSendLoop oracle subs l markers = ⟨0, [], [], markers⟩ := by
  intro l
  induction l with
  | nil => intro markers _; rfl
  | cons t rest ih =>
    intro markers hall
    simp only [cronSendLoop]
    rw [if_pos]
    · exact ih markers fun u hu => hall u (List.mem_cons_of_mem _ hu)
    · simpa using hall t (List.mem_cons_self _ _)

theorem cronSendLoop_oracle_indep (o1 o2 : String → EKey → SendResult)
    (subs : List String) :
    ∀ (l : List TEvent) (markers : List EKey),
      (cronSendLoop o1 subs l markers).sends =
          (cronSendLoop o2 subs l markers).sends ∧
        (cronSendLoop o1 subs l markers).written =
          (cronSendLoop o2 subs l markers).written ∧
        (cronSendLoop o1 subs l markers).markers =
          (cronSendLoop o2 subs l markers).markers := by
  intro l
  induction l with
  | nil => intro markers; exact ⟨rfl, rfl, rfl⟩
  | cons t rest ih =>
    intro markers
    simp only [cronSendLoop]
    split
    · exact ih markers
    · obtain ⟨h1, h2, h3⟩ := ih (ekey t :: markers)
      refine ⟨?_, ?_, h3⟩
      · rw [h1, cronSendEvent_sends o1, cronSendEvent_sends o2]
      · rw [h2]

/-! ## Concrete fixtures for witnesses and counterexamples -/

/-- Concrete date parser used in witnesses: a lookup table standing in for
`Date.parse` on the date strings of the fixture events below. -/
def dpNum (s : String) : Option Int :=
  if s = "1000" then some 1000
  else if s = "3600000" then some 3600000
  else if s = "810015000" then some 810015000
  else if s = "810045000" then some 810045000
  else none

/-- Fixture: a high-impact US CPI event whose date parses to `1000`. -/
def evCPI : Event :=
  ⟨"United States", "CPI", "1000", none, none, "high"⟩

/-- Fixture: an event with an unparseable date. -/
def evBadDate : Event :=
  ⟨"United States", "CPI", "x", none, none, "high"⟩

/-- Fixture: an event sitting exactly at `now + windowMinutes` for
`now = 0`, `windowMinutes = 60`. -/
def evBoundary : Event :=
  ⟨"United States", "CPI", "3600000", none, none, "high"⟩

/-- Fixture: CPI event at `810015000` ms (second 15 of its minute). -/
def evJitterA : Event :=
  ⟨"United States", "CPI", "810015000", none, none, "high"⟩

/-- Fixture: the same CPI event reported 30 seconds later within the same
minute (`810045000` ms). -/
def evJitterB : Event :=
  ⟨"United States", "CPI", "810045000", none, none, "high"⟩

/-- Oracle that throws on subscriber `"1"` and succeeds on everyone
else. -/
def throwOnChat1 : String → EconKey → SendResult :=
  fun c _ => if c == "1" then .threw else .ok

/-! ## C3 — window filter boundaries -/

/-- **C3** (amended).  The `api/cron.js` window filter retains exactly the
events with a parseable timestamp in the closed interval
`[now, now + windowMinutes]` — so the upper bound, the point 1 ms past it,
and `now` itself behave as the claim states.  The `api/cron/econ.js`
variant instead retains exactly the high-impact events in the half-open
interval `(now, now + 30 min]`, so there an event at exactly `now` is
excluded. -/
theorem c3_window_boundaries :
    (∀ (dp : String → Option Int) (now win : Int) (evs : List Event)
        (e : Event) (ts : Int), dp e.date = some ts →
      (e ∈ windowFilter dp now (now + win * 60000) evs ↔
        e ∈ evs ∧ now ≤ ts ∧ ts ≤ now + win * 60000)) ∧
    (∀ (dp : String → Option Int) (now : Int) (evs : List Event)
        (e : Event) (ts : Int), dp e.date = some ts →
      (e ∈ econUpcoming dp now evs ↔
        e ∈ evs ∧ now < ts ∧ ts ≤ now + 30 * 60000 ∧
          strLower e.impact = "high")) := by
  constructor
  · intro dp now win evs e ts hts
    rw [mem_windowFilter]
    simp [hts]
  · intro dp now evs e ts hts
    simp only [econUpcoming, List.mem_filter, hts]
    simp [and_assoc]

/-- **C3** witness: the boundary event at exactly `now + 60 min` is
retained by the `api/cron.js` filter, and the event at exactly `now` is
not retained by the `api/cron/econ.js` filter. -/
theorem c3_witness :
    evBoundary ∈ windowFilter dpNum 0 (0 + 60 * 60000) [evBoundary] ∧
      evCPI ∉ econUpcoming dpNum 1000 [evCPI] := by
  constructor
  · exact (c3_window_boundaries.1 dpNum 0 60 [evBoundary] evBoundary 3600000
      (by decide)).mpr (by decide)
  · intro hmem
    have h := (c3_window_boundaries.2 dpNum 1000 [evCPI] evCPI 1000
      (by decide)).mp hmem
    exact absurd h.2.1 (by decide)

/-- **C3** counterexample: the claim says an event at exactly `now` is
included by the alert window filter, but the `api/cron/econ.js` filter
(cited by the claim) drops it — `evCPI` parses to exactly `now = 1000`,
is high-impact, yet the filter output is empty. -/
theorem c3_counterexample :
    dpNum evCPI.date = some 1000 ∧ strLower evCPI.impact = "high" ∧
      econUpcoming dpNum 1000 [evCPI] = [] := by decide

/-! ## C8 — unparseable dates never reach the engine output -/

/-- **C8**.  An event whose `date` field does not parse never appears in
the output of the Filter & Dedupe Engine, for every window, mode, limit,
source and provider/manual input. -/
theorem c8_unparseable_dropped (dp : String → Option Int) (mode : String)
    (lim : Nat) (now windowMin : Int) (source : String)
    (apiCache : Option (Int × List Event))
    (outcome : FetchOutcome (List RawTE)) (manualRaw : List Event)
    (e : Event) (h : dp e.date = none) :
    ∀ t ∈ (cronEvents dp mode lim now windowMin source apiCache outcome
        manualRaw).2.2, t.ev ≠ e := by
  intro t ht heq
  obtain ⟨ts, hts⟩ := mem_cronEvents_parse ht
  rw [heq, h] at hts
  cases hts

/-- **C8** witness: with the unparseable-date event and a good event both
in the manual store, the engine's single output row is the good event, and
the theorem applies to it. -/
theorem c8_witness :
    (⟨evCPI, 1000⟩ : TEvent).ev ≠ evBadDate :=
  c8_unparseable_dropped dpNum "major" 5 0 60 "manual" none (.ok [])
    [evBadDate, evCPI] evBadDate (by decide) ⟨evCPI, 1000⟩ (by decide)

/-! ## C9 — upcoming preview fallback and cache behaviour -/

/-- **C9** (amended).  With the upcoming cache empty or expired and the
manual store holding one future event within 24 hours, the public preview
endpoint returns that event via the live fallback.  The endpoint itself
performs no cache write, so a second call while the cache is still empty
re-queries manual storage and returns the same event (it is the cron
pipeline, not this endpoint, that repopulates the cache). -/
theorem c9_upcoming_fallback (dp : String → Option Int) (now : Int)
    (lim : Nat) (e : Event) (ts : Int) (hts : dp e.date = some ts)
    (h1 : now ≤ ts) (h2 : ts ≤ now + 86400000) (h3 : 1 ≤ lim) :
    (upcomingHandler dp now lim none [e]).items = [⟨e, ts⟩] ∧
      (upcomingHandler dp now lim none [e]).queriedManual = true ∧
      (upcomingHandler dp now lim none [e]).cacheWrites = 0 := by
  have hfall : upcomingFallback dp now [e] = [⟨e, ts⟩] := by
    simp [upcomingFallback, hts, h1, h2, sortByTs, insertByTs]
  obtain ⟨n, rfl⟩ : ∃ n, lim = n + 1 := ⟨lim - 1, by omega⟩
  refine ⟨?_, rfl, rfl⟩
  simp [upcomingHandler, hfall]

/-- **C9** witness: the fixture event 1 second in the future is served by
the fallback with no cache write. -/
theorem c9_witness :
    (upcomingHandler dpNum 0 5 none [evCPI]).items = [⟨evCPI, 1000⟩] ∧
      (upcomingHandler dpNum 0 5 none [evCPI]).queriedManual = true ∧
      (upcomingHandler dpNum 0 5 none [evCPI]).cacheWrites = 0 :=
  c9_upcoming_fallback dpNum 0 5 evCPI 1000 (by decide) (by decide)
    (by decide) (by decide)

/-- **C9** counterexample: the claim says the second call is served from
the cache without re-querying manual storage, but the handler performs no
cache write at all (`cacheWrites = 0`), so the store state before the
second call is unchanged and the second call — the same application —
queries manual storage again (`queriedManual = true`). -/
theorem c9_counterexample :
    (upcomingHandler dpNum 0 5 none [evCPI]).cacheWrites = 0 ∧
      (upcomingHandler dpNum 0 5 none [evCPI]).queriedManual = true := by
  decide

/-! ## C6 — subscriber id validation -/

theorem isAllDigits_parts {s : String} (h : isAllDigits s = true) :
    s.isEmpty = false ∧ ∀ c ∈ s.toList, c.isDigit = true := by
  simpa [isAllDigits, List.all_eq_true] using h

theorem isAllDigits_no_char {s : String} (h : isAllDigits s = true)
    {c : Char} (hc : c.isDigit = false) : strHasChar s c = false := by
  by_contra hcon
  rw [Bool.not_eq_false] at hcon
  have hm : c ∈ s.toList := by simpa [strHasChar] using hcon
  rw [(isAllDigits_parts h).2 c hm] at hc
  cases hc

theorem startsWithP_head {p c : Char} {ps cs : List Char}
    (h : startsWithP (p :: ps) (c :: cs) = true) : p = c := by
  have h2 : p = c ∧ startsWithP ps cs = true := by simpa [startsWithP] using h
  exact h2.1

theorem hasInfixP_head_mem {p : Char} {ps : List Char} :
    ∀ {l : List Char}, hasInfixP (p :: ps) l = true → p ∈ l := by
  intro l
  induction l with
  | nil => intro h; simp [hasInfixP, startsWithP] at h
  | cons c cs ih =>
    intro h
    rcases (Bool.or_eq_true _ _).mp (by simpa [hasInfixP] using h) with h1 | h2
    · rw [startsWithP_head h1]; exact List.mem_cons_self _ _
    · exact List.mem_cons_of_mem _ (ih h2)

theorem isAllDigits_no_user {s : String} (h : isAllDigits s = true) :
    strHasSub s "user." = false := by
  by_contra hcon
  rw [Bool.not_eq_false] at hcon
  have h2 : hasInfixP ('u' :: ['s', 'e', 'r', '.']) s.toList = true := by
    simpa [strHasSub] using hcon
  have hm : 'u' ∈ s.toList := hasInfixP_head_mem h2
  have := (isAllDigits_parts h).2 'u' hm
  simp at this

theorem mem_sadd (subs : List String) (x : String) : x ∈ sadd subs x := by
  unfold sadd
  split
  · next h => simpa using h
  · exact List.mem_append_right _ (List.mem_singleton.mpr rfl)

/-- **C6** (amended).  Through the `part_005` subscribe endpoint,
`addSubscriber(id)` followed by `listSubscribers()` contains `id` iff `id`
matches `^\d+$`, and a non-matching id is rejected with an error response
leaving the subscriber set unchanged.  The subscribe variant inside
`api/econ/admin/add.js`, however, stores any non-empty id without
validation, so through that endpoint a non-matching id is accepted and
listed. -/
theorem c6_subscriber_validation :
    (∀ (id : String) (subs : List String), isAllDigits id = true →
      part005Subscribe id subs = (.okResp (sadd subs id).length, sadd subs id) ∧
        id ∈ (part005Subscribe id subs).2) ∧
    (∀ (id : String) (subs : List String), isAllDigits id = false →
      (part005Subscribe id subs).2 = subs ∧
        ∀ c, (part005Subscribe id subs).1 ≠ SubResp.okResp c) ∧
    (∀ (id : String) (subs : List String), id ≠ "" →
      addJsSubscribe id subs = (.okResp (sadd subs id).length, sadd subs id) ∧
        id ∈ (addJsSubscribe id subs).2) := by
  refine ⟨?_, ?_, ?_⟩
  · intro id subs h
    have he := (isAllDigits_parts h).1
    have hb1 := isAllDigits_no_char h (c := '{') (by decide)
    have hb2 := isAllDigits_no_char h (c := '}') (by decide)
    have hu := isAllDigits_no_user h
    constructor
    · simp [part005Subscribe, he, hb1, hb2, hu, h]
    · simp only [part005Subscribe, he, hb1, hb2, hu, h]
      simpa using mem_sadd subs id
  · intro id subs h
    by_cases he : id.isEmpty
    · constructor
      · simp [part005Subscribe, he]
      · intro c; simp [part005Subscribe, he]
    · by_cases ht : (strHasChar id '{' || strHasChar id '}' ||
          strHasSub id "user.") = true
      · constructor
        · simp [part005Subscribe, he, ht]
        · intro c; simp [part005Subscribe, he, ht]
      · constructor
        · simp [part005Subscribe, he, ht, h]
        · intro c; simp [part005Subscribe, he, ht, h]
  · intro id subs h
    have he : id.isEmpty = false := by
      cases hid : id.isEmpty
      · rfl
      · exact absurd ((String.isEmpty_iff id).mp (by simpa using hid)) h
    constructor
    · simp [addJsSubscribe, he]
    · simp only [addJsSubscribe, he]
      simpa using mem_sadd subs id

/-- **C6** witness: the all-digit id `"123"` is accepted and listed by the
`part_005` endpoint, the non-digit id `"abc"` is rejected there with the
set unchanged, and `"abc"` is accepted by the unvalidated `add.js`
variant. -/
theorem c6_witness :
    "123" ∈ (part005Subscribe "123" []).2 ∧
      (part005Subscribe "abc" ["9"]).2 = ["9"] ∧
      "abc" ∈ (addJsSubscribe "abc" []).2 :=
  ⟨(c6_subscriber_validation.1 "123" [] (by decide)).2,
    (c6_subscriber_validation.2.1 "abc" ["9"] (by decide)).1,
    (c6_subscriber_validation.2.2 "abc" [] (by decide)).2⟩

/-- **C6** counterexample: through the subscribe variant in
`api/econ/admin/add.js` (cited by the claim), adding the non-numeric id
`"abc"` succeeds with no error response, and the subscriber list then
contains `"abc"` although it does not match `^\d+$`. -/
theorem c6_counterexample :
    (addJsSubscribe "abc" []).1 = SubResp.okResp 1 ∧
      (addJsSubscribe "abc" []).2 = ["abc"] ∧
      isAllDigits "abc" = false := by decide

/-! ## C7 — dedupe key composition -/

/-- **C7** (amended).  In `api/cron.js` the dedupe key is the composite of
country, title and the minute-truncated timestamp: two events with the same
country and title share a key iff their timestamps agree to the minute, and
since the (UTC) day is determined by the minute
(`minute / 1440 = ts / 86400000`), same-titled events on different days get
distinct keys.  The `part_015` variant instead keys on the raw date string,
so same-minute events with different sub-minute date strings get distinct
keys there. -/
theorem c7_dedupe_key :
    (∀ t1 t2 : TEvent, t1.ev.country = t2.ev.country →
      t1.ev.title = t2.ev.title →
      (ekey t1 = ekey t2 ↔ tsMinute t1.ts = tsMinute t2.ts)) ∧
    (∀ ts : Int, tsMinute ts / 1440 = ts / 86400000) ∧
    (∀ t1 t2 : TEvent, ekey t1 = ekey t2 →
      t1.ts / 86400000 = t2.ts / 86400000) ∧
    (∀ e1 e2 : Event, e1.country = e2.country → e1.title = e2.title →
      (p15key e1 = p15key e2 ↔ e1.date = e2.date)) := by
  have hday : ∀ ts : Int, tsMinute ts / 1440 = ts / 86400000 := by
    intro ts
    unfold tsMinute
    omega
  refine ⟨?_, hday, ?_, ?_⟩
  · intro t1 t2 hc ht
    simp [ekey, EKey.mk.injEq, hc, ht]
  · intro t1 t2 hk
    have hm : tsMinute t1.ts = tsMinute t2.ts :=
      (by simpa [ekey, EKey.mk.injEq] using hk :
        t1.ev.country = t2.ev.country ∧ t1.ev.title = t2.ev.title ∧
          tsMinute t1.ts = tsMinute t2.ts).2.2
    rw [← hday, ← hday, hm]
  · intro e1 e2 hc ht
    simp [p15key, PKey.mk.injEq, hc, ht]

/-- **C7** witness: the jitter fixtures (same CPI event reported at 15 s
and 45 s of the same minute) share the `api/cron.js` dedupe key, while
their `part_015` keys differ. -/
theorem c7_witness :
    ekey ⟨evJitterA, 810015000⟩ = ekey ⟨evJitterB, 810045000⟩ ∧
      p15key evJitterA ≠ p15key evJitterB := by
  constructor
  · exact (c7_dedupe_key.1 ⟨evJitterA, 810015000⟩ ⟨evJitterB, 810045000⟩
      (by decide) (by decide)).mpr (by decide)
  · intro h
    have := (c7_dedupe_key.2.2.2 evJitterA evJitterB (by decide)
      (by decide)).mp h
    exact absurd this (by decide)

/-- **C7** counterexample: in the `part_015` variant (cited by the claim)
the dedupe key is not minute-truncated — the two fixture events are
identical except for a sub-minute timestamp difference (both parse into
minute `13500`), yet their `part_015` dedupe keys differ. -/
theorem c7_counterexample :
    dpNum evJitterA.date = some 810015000 ∧
      dpNum evJitterB.date = some 810045000 ∧
      tsMinute 810015000 = tsMinute 810045000 ∧
      evJitterA.country = evJitterB.country ∧
      evJitterA.title = evJitterB.title ∧
      p15key evJitterA ≠ p15key evJitterB := by decide

/-! ## C1 — dry-run purity -/

theorem p15SendLoop_dry (oracle : String → PKey → SendResult)
    (subs : List String) :
    ∀ (evs : List Event) (st : P15Progress),
      ∃ st2, p15SendLoop oracle subs true evs st = .ok st2 ∧
        st2.sent = st.sent ∧ st2.sends = st.sends ∧
        (∀ k ∈ st.markers, k ∈ st2.markers) ∧
        (∀ e ∈ evs, p15key e ∈ st2.markers) := by
  intro evs
  induction evs with
  | nil =>
    intro st
    exact ⟨st, rfl, rfl, rfl, fun k hk => hk, by simp⟩
  | cons e rest ih =>
    intro st
    simp only [p15SendLoop]
    split
    · next hc =>
      obtain ⟨st2, h1, h2, h3, h4, h5⟩ := ih st
      refine ⟨st2, h1, h2, h3, h4, ?_⟩
      intro u hu
      rcases List.mem_cons.mp hu with h | h
      · rw [h]; exact h4 _ (by simpa using hc)
      · exact h5 u h
    · obtain ⟨st2, h1, h2, h3, h4, h5⟩ :=
        ih ⟨st.sent, st.sends, st.written ++ [p15key e],
          st.markers ++ [p15key e]⟩
      refine ⟨st2, h1, h2, h3, ?_, ?_⟩
      · intro k hk
        exact h4 k (List.mem_append_left _ hk)
      · intro u hu
        rcases List.mem_cons.mp hu with h | h
        · rw [h]
          exact h4 _ (List.mem_append_right _ (List.mem_singleton.mpr rfl))
        · exact h5 u h

/-- **C1** (amended).  In `api/cron.js`, a dry run performs no outbound
send and writes no dedupe marker, leaving the marker store unchanged, for
every input.  In the `part_015` variant a dry run likewise performs no
send, but it *does* write a dedupe marker for every selected event that
passed the dedupe check, because the marker write sits outside the dry
guard. -/
theorem c1_dry_run :
    (∀ (dp : String → Option Int) (mode : String) (lim : Nat)
        (now windowMin : Int) (botToken : Bool) (source : String)
        (apiCache : Option (Int × List Event))
        (outcome : FetchOutcome (List RawTE)) (manualRaw : List Event)
        (subsRaw : List String) (oracle : String → EKey → SendResult)
        (markers : List EKey),
      (cronHandler dp true mode lim now windowMin botToken source apiCache
          outcome manualRaw subsRaw oracle markers).sent = 0 ∧
        (cronHandler dp true mode lim now windowMin botToken source apiCache
          outcome manualRaw subsRaw oracle markers).sends = [] ∧
        (cronHandler dp true mode lim now windowMin botToken source apiCache
          outcome manualRaw subsRaw oracle markers).written = [] ∧
        (cronHandler dp true mode lim now windowMin botToken source apiCache
          outcome manualRaw subsRaw oracle markers).markers = markers) ∧
    (∀ (oracle : String → PKey → SendResult) (subs : List String)
        (evs : List Event) (markers : List PKey),
      ∃ st, p15SendLoop oracle subs true evs ⟨0, [], [], markers⟩ = .ok st ∧
        st.sent = 0 ∧ st.sends = [] ∧
        ∀ e ∈ evs, p15key e ∈ st.markers) := by
  constructor
  · intro dp mode lim now windowMin botToken source apiCache outcome
      manualRaw subsRaw oracle markers
    cases botToken
    · exact ⟨rfl, rfl, rfl, rfl⟩
    · by_cases hv : (subsRaw.filter isAllDigits).isEmpty = true
      · simp [cronHandler, hv]
      · by_cases hf : (cronEvents dp mode lim now windowMin source apiCache
            outcome manualRaw).2.2.isEmpty = true
        · simp [cronHandler, hv, hf]
        · simp [cronHandler, hv, hf]
  · intro oracle subs evs markers
    obtain ⟨st, h1, h2, h3, h4, h5⟩ :=
      p15SendLoop_dry oracle subs evs ⟨0, [], [], markers⟩
    exact ⟨st, h1, h2, h3, h5⟩

/-- **C1** witness: on the fixture input, the `api/cron.js` dry run writes
no marker, while the `part_015` dry loop marks the CPI event. -/
theorem c1_witness :
    (cronHandler dpNum true "major" 5 0 60 true "manual" none (.ok [])
        [evCPI] ["123"] (fun _ _ => SendResult.ok) []).written = [] ∧
      ∃ st, p15SendLoop (fun _ _ => SendResult.ok) ["123"] true [evCPI]
          ⟨0, [], [], []⟩ = .ok st ∧ p15key evCPI ∈ st.markers := by
  obtain ⟨st, h1, h2, h3, h4⟩ :=
    c1_dry_run.2 (fun _ _ => SendResult.ok) ["123"] [evCPI] []
  exact ⟨(c1_dry_run.1 dpNum "major" 5 0 60 true "manual" none (.ok [])
      [evCPI] ["123"] (fun _ _ => SendResult.ok) []).2.2.1,
    st, h1, h4 evCPI (List.mem_singleton.mpr rfl)⟩

/-- **C1** counterexample: the claim says a dry run never creates a dedupe
marker, for any input; but the `part_015` send loop (cited by the claim),
run dry on one unmarked event, writes that event's dedupe marker. -/
theorem c1_counterexample :
    p15SendLoop (fun _ _ => SendResult.ok) ["123"] true [evCPI]
        ⟨0, [], [], []⟩ = .ok ⟨0, [], [p15key evCPI], [p15key evCPI]⟩ ∧
      ([p15key evCPI] : List PKey) ≠ [] := by
  exact ⟨rfl, by decide⟩

/-! ## C2 — second identical run sends nothing -/

theorem cronHandler_rerun (dp : String → Option Int) (mode : String)
    (lim : Nat) (now windowMin : Int) (botToken : Bool) (source : String)
    (apiCache : Option (Int × List Event))
    (outcome : FetchOutcome (List RawTE)) (manualRaw : List Event)
    (subsRaw : List String) (o1 o2 : String → EKey → SendResult)
    (markers : List EKey) :
    (cronHandler dp false mode lim now windowMin botToken source apiCache
        outcome manualRaw subsRaw o2
        (cronHandler dp false mode lim now windowMin botToken source apiCache
          outcome manualRaw subsRaw o1 markers).markers).sends = [] ∧
      (cronHandler dp false mode lim now windowMin botToken source apiCache
        outcome manualRaw subsRaw o2
        (cronHandler dp false mode lim now windowMin botToken source apiCache
          outcome manualRaw subsRaw o1 markers).markers).sent = 0 := by
  cases botToken
  · exact ⟨rfl, rfl⟩
  · by_cases hv : (subsRaw.filter isAllDigits).isEmpty = true
    · constructor <;> simp [cronHandler, hv]
    · by_cases hf : (cronEvents dp mode lim now windowMin source apiCache
          outcome manualRaw).2.2.isEmpty = true
      · constructor <;> simp [cronHandler, hv, hf]
      · have hall : ∀ t ∈ (cronEvents dp mode lim now windowMin source
              apiCache outcome manualRaw).2.2,
            ekey t ∈ (cronSendLoop o1 (subsRaw.filter isAllDigits)
              (cronEvents dp mode lim now windowMin source apiCache outcome
                manualRaw).2.2 markers).markers :=
          fun t ht => cronSendLoop_mem_markers o1 _ _ markers t ht
        have h2 := cronSendLoop_all_marked o2 (subsRaw.filter isAllDigits)
          (cronEvents dp mode lim now windowMin source apiCache outcome
            manualRaw).2.2
          (cronSendLoop o1 (subsRaw.filter isAllDigits)
            (cronEvents dp mode lim now windowMin source apiCache outcome
              manualRaw).2.2 markers).markers hall
        constructor <;> simp [cronHandler, hv, hf, h2]

/-- **C2**.  Running the `api/cron.js` pipeline twice in immediate
succession with identical inputs against a live dedupe store yields zero
sends on the second run: every event of the filtered list is marked by the
end of the first (non-dry) run, so the second run skips them all —
whatever the send outcomes of either run were. -/
theorem c2_second_run_zero_sends (dp : String → Option Int) (mode : String)
    (lim : Nat) (now windowMin : Int) (botToken : Bool) (source : String)
    (apiCache : Option (Int × List Event))
    (outcome : FetchOutcome (List RawTE)) (manualRaw : List Event)
    (subsRaw : List String) (o1 o2 : String → EKey → SendResult)
    (markers : List EKey) :
    (cronHandler dp false mode lim now windowMin botToken source apiCache
        outcome manualRaw subsRaw o2
        (cronHandler dp false mode lim now windowMin botToken source apiCache
          outcome manualRaw subsRaw o1 markers).markers).sends = [] ∧
      (cronHandler dp false mode lim now windowMin botToken source apiCache
        outcome manualRaw subsRaw o2
        (cronHandler dp false mode lim now windowMin botToken source apiCache
          outcome manualRaw subsRaw o1 markers).markers).sent = 0 :=
  cronHandler_rerun dp mode lim now windowMin botToken source apiCache
    outcome manualRaw subsRaw o1 o2 markers

/-! ## C4 — provider failures are fatal only in the old variants -/

theorem cronProvider_httpError (dp : String → Option Int) (now endTs : Int)
    (apiCache : Option (Int × List Event)) (s : Nat) :
    cronProvider dp now endTs apiCache (.httpError s) =
      cronProvider dp now endTs apiCache (.ok []) := by
  unfold cronProvider
  split <;> rfl

theorem cronProvider_exn (dp : String → Option Int) (now endTs : Int)
    (apiCache : Option (Int × List Event)) (m : String) :
    cronProvider dp now endTs apiCache (.exn m) =
      cronProvider dp now endTs apiCache (.ok []) := by
  unfold cronProvider
  split <;> rfl

theorem cronEvents_httpError (dp : String → Option Int) (mode : String)
    (lim : Nat) (now windowMin : Int) (source : String)
    (apiCache : Option (Int × List Event)) (manualRaw : List Event)
    (s : Nat) :
    cronEvents dp mode lim now windowMin source apiCache (.httpError s)
        manualRaw =
      cronEvents dp mode lim now windowMin source apiCache (.ok [])
        manualRaw := by
  simp only [cronEvents]
  rw [cronProvider_httpError]

theorem cronEvents_exn (dp : String → Option Int) (mode : String)
    (lim : Nat) (now windowMin : Int) (source : String)
    (apiCache : Option (Int × List Event)) (manualRaw : List Event)
    (m : String) :
    cronEvents dp mode lim now windowMin source apiCache (.exn m)
        manualRaw =
      cronEvents dp mode lim now windowMin source apiCache (.ok [])
        manualRaw := by
  simp only [cronEvents]
  rw [cronProvider_exn]

theorem cronHandler_resp_ok (dp : String → Option Int) (dry : Bool)
    (mode : String) (lim : Nat) (now windowMin : Int) (source : String)
    (apiCache : Option (Int × List Event))
    (outcome : FetchOutcome (List RawTE)) (manualRaw : List Event)
    (subsRaw : List String) (oracle : String → EKey → SendResult)
    (markers : List EKey) :
    (cronHandler dp dry mode lim now windowMin true source apiCache outcome
      manualRaw subsRaw oracle markers).resp.isErr = false := by
  by_cases hv : (subsRaw.filter isAllDigits).isEmpty = true
  · simp [cronHandler, hv, CronResp.isErr]
  · by_cases hf : (cronEvents dp mode lim now windowMin source apiCache
        outcome manualRaw).2.2.isEmpty = true
    · simp [cronHandler, hv, hf, CronResp.isErr]
    · cases dry
      · simp [cronHandler, hv, hf, CronResp.isErr]
      · simp [cronHandler, hv, hf, CronResp.isErr]

/-- **C4** (amended).  In `api/cron.js` an upstream provider failure
(non-2xx or thrown fetch) is indistinguishable from the provider returning
zero events — the run continues with manual events and, given a configured
bot token, never produces an error response.  In the `api/cron/econ.js`
and `part_015` variants (both cited by the claim), however, a provider
failure makes the run fail with a 5xx error response. -/
theorem c4_provider_failure :
    (∀ (dp : String → Option Int) (dry : Bool) (mode : String) (lim : Nat)
        (now windowMin : Int) (source : String)
        (apiCache : Option (Int × List Event)) (manualRaw : List Event)
        (subsRaw : List String) (oracle : String → EKey → SendResult)
        (markers : List EKey) (s : Nat) (m : String),
      cronHandler dp dry mode lim now windowMin true source apiCache
          (.httpError s) manualRaw subsRaw oracle markers =
        cronHandler dp dry mode lim now windowMin true source apiCache
          (.ok []) manualRaw subsRaw oracle markers ∧
      cronHandler dp dry mode lim now windowMin true source apiCache
          (.exn m) manualRaw subsRaw oracle markers =
        cronHandler dp dry mode lim now windowMin true source apiCache
          (.ok []) manualRaw subsRaw oracle markers ∧
      (cronHandler dp dry mode lim now windowMin true source apiCache
        (.httpError s) manualRaw subsRaw oracle markers).resp.isErr = false ∧
      (cronHandler dp dry mode lim now windowMin true source apiCache
        (.exn m) manualRaw subsRaw oracle markers).resp.isErr = false) ∧
    (∀ (dp : String → Option Int) (now : Int) (subs : List String)
        (oracle : String → EconKey → SendResult) (markers : List EconKey)
        (s : Nat) (m : String), subs ≠ [] →
      econHandler dp now subs (.httpError s) oracle markers =
          (.apiError s, markers) ∧
        econHandler dp now subs (.exn m) oracle markers =
          (.fetchError m, markers) ∧
        EconResp.isErr (.apiError s) = true ∧
        EconResp.isErr (.fetchError m) = true) ∧
    (∀ (subsRaw : List String) (s : Nat) (m : String),
      (subsRaw.filter isAllDigits).isEmpty = false →
      part015FetchPhase true subsRaw (.httpError s) =
          some (.teApiError s) ∧
        part015FetchPhase true subsRaw (.exn m) = some (.teFetchError m) ∧
        P15Resp.isErr (.teApiError s) = true ∧
        P15Resp.isErr (.teFetchError m) = true) := by
  refine ⟨?_, ?_, ?_⟩
  · intro dp dry mode lim now windowMin source apiCache manualRaw subsRaw
      oracle markers s m
    refine ⟨?_, ?_, cronHandler_resp_ok .., cronHandler_resp_ok ..⟩
    · unfold cronHandler
      rw [cronEvents_httpError]
    · unfold cronHandler
      rw [cronEvents_exn]
  · intro dp now subs oracle markers s m h
    cases subs with
    | nil => exact absurd rfl h
    | cons c t => exact ⟨rfl, rfl, rfl, rfl⟩
  · intro subsRaw s m h
    refine ⟨?_, ?_, rfl, rfl⟩ <;> simp [part015FetchPhase, h]

/-- **C4** witness: with one subscriber, a 403 from the provider leaves the
`api/cron.js` run identical to a zero-event run, while the
`api/cron/econ.js` variant returns its 500 `API error` response and the
`part_015` variant its 502 response. -/
theorem c4_witness :
    cronHandler dpNum false "major" 5 0 60 true "provider" none
        (.httpError 403) [evCPI] ["123"] (fun _ _ => SendResult.ok) [] =
      cronHandler dpNum false "major" 5 0 60 true "provider" none
        (.ok []) [evCPI] ["123"] (fun _ _ => SendResult.ok) [] ∧
    econHandler dpNum 0 ["123"] (.httpError 403)
        (fun _ _ => SendResult.ok) [] = (.apiError 403, []) ∧
    part015FetchPhase true ["123"] (.httpError 403) =
      some (.teApiError 403) :=
  ⟨(c4_provider_failure.1 dpNum false "major" 5 0 60 "provider" none
      [evCPI] ["123"] (fun _ _ => SendResult.ok) [] 403 "x").1,
    (c4_provider_failure.2.1 dpNum 0 ["123"] (fun _ _ => SendResult.ok) []
      403 "x" (by decide)).1,
    (c4_provider_failure.2.2 ["123"] 403 "x" (by decide)).1⟩

/-- **C4** counterexample: the claim says a provider failure never causes
the pipeline run to fail with an error response, yet the
`api/cron/econ.js` variant (cited by the claim) maps a provider 403
straight to a 500 `API error` response, and `part_015` maps it to a
502. -/
theorem c4_counterexample :
    (econHandler dpNum 0 ["123"] (.httpError 403)
        (fun _ _ => SendResult.ok) []).1 = .apiError 403 ∧
      EconResp.isErr (.apiError 403) = true ∧
      part015FetchPhase true ["123"] (.httpError 403) =
        some (.teApiError 403) ∧
      P15Resp.isErr (.teApiError 403) = true := by decide

/-! ## C5 — send-failure isolation -/

/-- **C5** (amended).  In the `api/cron.js` broadcast loop a failed send
never aborts the remaining sends: the list of attempted `(chat, event)`
sends is independent of the send outcomes, and for each dispatched event
every subscriber is attempted exactly once, in order.  In the
`api/cron/econ.js` variant the send call is not guarded, so a send that
throws aborts the rest of the run: with subscribers `"1"` and `"2"` and a
send to `"1"` that throws, the loop ends in the error state having
attempted only the send to `"1"`. -/
theorem c5_send_failure_isolation :
    (∀ (o1 o2 : String → EKey → SendResult) (subs : List String)
        (l : List TEvent) (markers : List EKey),
      (cronSendLoop o1 subs l markers).sends =
        (cronSendLoop o2 subs l markers).sends) ∧
    (∀ (oracle : String → EKey → SendResult) (subs : List String)
        (k : EKey),
      (cronSendEvent oracle subs k).2 = subs.map fun c => (c, k)) ∧
    econSendLoop throwOnChat1 [evCPI] ["1", "2"] ⟨0, [], []⟩ =
      .error ⟨0, [("1", econKey "1" evCPI)], []⟩ := by
  refine ⟨?_, ?_, rfl⟩
  · intro o1 o2 subs l markers
    exact (cronSendLoop_oracle_indep o1 o2 subs l markers).1
  · intro oracle subs k
    exact cronSendEvent_sends oracle k subs

/-- **C5** counterexample: the claim says a failed send to one subscriber
never aborts the sends to the remaining subscribers; in the
`api/cron/econ.js` loop (cited by the claim) the thrown send to
subscriber `"1"` aborts the run before subscriber `"2"` is ever
attempted. -/
theorem c5_counterexample :
    econSendLoop throwOnChat1 [evCPI] ["1", "2"] ⟨0, [], []⟩ =
        .error ⟨0, [("1", econKey "1" evCPI)], []⟩ ∧
      ("2", econKey "2" evCPI) ∉
        ([("1", econKey "1" evCPI)] : List (String × EconKey)) := by
  exact ⟨rfl, by decide⟩

/-! ## C10 — markers are written whatever the send outcomes -/

theorem cronSendEvent_fail_count (k : EKey) :
    ∀ subs : List String,
      (cronSendEvent (fun _ _ => SendResult.httpFail) subs k).1 = 0 := by
  intro subs
  induction subs with
  | nil => rfl
  | cons c rest ih => simp [cronSendEvent, ih]

theorem cronSendLoop_fail_sent (subs : List String) :
    ∀ (l : List TEvent) (markers : List EKey),
      (cronSendLoop (fun _ _ => SendResult.httpFail) subs l markers).sent
        = 0 := by
  intro l
  induction l with
  | nil => intro markers; rfl
  | cons t rest ih =>
    intro markers
    simp only [cronSendLoop]
    split
    · exact ih markers
    · simp [cronSendEvent_fail_count, ih]

/-- **C10**.  In a non-dry `api/cron.js` run with at least one valid
subscriber, every filtered event ends up with a dedupe marker in the final
store state, for *every* send oracle — the marker write after the
subscriber loop does not depend on any send succeeding.  In particular,
with the all-failing oracle the run reports `sent = 0` while the markers
are still written, the marker TTL is the 48-hour `DEDUPE_EXPIRY`
(172800 seconds), and a later identical run sends nothing for the marked
events — the failed event is never retried within the marker horizon. -/
theorem c10_marked_despite_failures (dp : String → Option Int)
    (mode : String) (lim : Nat) (now windowMin : Int) (source : String)
    (apiCache : Option (Int × List Event))
    (outcome : FetchOutcome (List RawTE)) (manualRaw : List Event)
    (subsRaw : List String) (oracle o2 : String → EKey → SendResult)
    (markers : List EKey)
    (hsubs : (subsRaw.filter isAllDigits).isEmpty = false) :
    DEDUPE_EXPIRY = 172800 ∧
      (∀ t ∈ (cronEvents dp mode lim now windowMin source apiCache outcome
          manualRaw).2.2,
        ekey t ∈ (cronHandler dp false mode lim now windowMin true source
          apiCache outcome manualRaw subsRaw oracle markers).markers) ∧
      (cronHandler dp false mode lim now windowMin true source apiCache
        outcome manualRaw subsRaw (fun _ _ => SendResult.httpFail)
        markers).sent = 0 ∧
      (cronHandler dp false mode lim now windowMin true source apiCache
        outcome manualRaw subsRaw o2
        (cronHandler dp false mode lim now windowMin true source apiCache
          outcome manualRaw subsRaw (fun _ _ => SendResult.httpFail)
          markers).markers).sends = [] := by
  refine ⟨rfl, ?_, ?_,
    (cronHandler_rerun dp mode lim now windowMin true source apiCache
      outcome manualRaw subsRaw (fun _ _ => SendResult.httpFail) o2
      markers).1⟩
  · intro t ht
    by_cases hf : (cronEvents dp mode lim now windowMin source apiCache
        outcome manualRaw).2.2.isEmpty = true
    · rw [List.isEmpty_iff] at hf
      rw [hf] at ht
      simp at ht
    · simp only [cronHandler, hsubs, hf]
      simp only [Bool.not_true, Bool.false_eq_true, if_false]
      exact cronSendLoop_mem_markers oracle _ _ markers t ht
  · by_cases hf : (cronEvents dp mode lim now windowMin source apiCache
        outcome manualRaw).2.2.isEmpty = true
    · simp [cronHandler, hsubs, hf]
    · simp [cronHandler, hsubs, hf, cronSendLoop_fail_sent]

/-- **C10** witness: with one valid subscriber and the all-failing oracle,
the fixture CPI event is marked although `sent = 0`. -/
theorem c10_witness :
    DEDUPE_EXPIRY = 172800 ∧
      ekey ⟨evCPI, 1000⟩ ∈ (cronHandler dpNum false "major" 5 0 60 true
        "manual" none (.ok []) [evCPI] ["123"]
        (fun _ _ => SendResult.httpFail) []).markers ∧
      (cronHandler dpNum false "major" 5 0 60 true "manual" none (.ok [])
        [evCPI] ["123"] (fun _ _ => SendResult.httpFail) []).sent = 0 := by
  obtain ⟨h1, h2, h3, h4⟩ := c10_marked_despite_failures dpNum "major" 5 0
    60 "manual" none (.ok []) [evCPI] ["123"]
    (fun _ _ => SendResult.httpFail) (fun _ _ => SendResult.ok) []
    (by decide)
  exact ⟨h1, h2 ⟨evCPI, 1000⟩ (by decide), h3⟩

end Liirat
